import Mathlib

/-!
Shallow embedding of `custom_components/smartthings/fan.py` (SmartThings fan
platform): the capability classifier `get_capabilities`, the feature
derivation `_determine_features`, the command-issuing operations
(`_async_set_percentage`, `async_set_preset_mode`, `async_turn_on`,
`async_turn_off`) modelled as effect traces with exception propagation, and
the read-back `percentage` property.

External helpers (`homeassistant.util.percentage`, the pysmartthings status
snapshot) are not part of this repository; they are modelled from the spec
where so marked. Python float arithmetic in the percentage transforms is
modelled with exact rationals: on the integer inputs involved (percentages
in [0,100], levels in [1,3]) the float results are never within rounding
error of an integer boundary, so floor/ceil agree with the exact values.
-/

namespace STFan

/- pysmartthings capability identifiers used by `fan.py`. -/
namespace Capability

def switch : String := "switch"

def fan_speed : String := "fanSpeed"

def air_conditioner_fan_mode : String := "airConditionerFanMode"

end Capability

/-- Modelled from the spec: `homeassistant.util.scaling.states_in_range`,
the number of integer states in an inclusive low-high range
(`high - low + 1`). -/
def states_in_range (r : ℚ × ℚ) : ℚ := r.2 - r.1 + 1

/-- `SPEED_RANGE = (1, 3)` from `fan.py` (off is not included). -/
def SPEED_RANGE : ℚ × ℚ := (1, 3)

/-- Modelled from the spec: `homeassistant.util.percentage.percentage_to_ranged_value`,
the monotonic affine map from a percentage onto a low-high range:
`states_in_range(range) * percentage / 100 + (low - 1)`. -/
def percentage_to_ranged_value (r : ℚ × ℚ) (percentage : ℚ) : ℚ :=
  states_in_range r * percentage / 100 + (r.1 - 1)

/-- Modelled from the spec: `homeassistant.util.percentage.ranged_value_to_percentage`,
the inverse transform from a ranged value to a percentage:
`int((value - (low - 1)) * 100 // states_in_range(range))` (floor division;
`int()` agrees with the floor on the non-negative values arising here). -/
def ranged_value_to_percentage (r : ℚ × ℚ) (value : ℚ) : ℤ :=
  ⌊(value - (r.1 - 1)) * 100 / states_in_range r⌋

/-- `get_capabilities` from `fan.py`: return all capabilities supported if
the minimum required are present. Requires `switch`; requires at least one
of the optional capabilities; on success returns `switch` followed by the
optional capabilities that are present. -/
def get_capabilities (capabilities : List String) : Option (List String) :=
  if Capability.switch ∉ capabilities then none
  else
    let optional := [Capability.air_conditioner_fan_mode, Capability.fan_speed]
    if ¬ optional.any (fun capability => decide (capability ∈ capabilities)) then none
    else
      some (Capability.switch ::
        optional.filter (fun capability => decide (capability ∈ capabilities)))

/-- A remote device as seen by feature derivation: the set of capability
identifiers it reports (pysmartthings `get_capability` presence check). -/
structure Device where
  capabilities : List String

/-- `device.get_capability(cap)`: whether the device reports `cap`. -/
def Device.get_capability (d : Device) (cap : String) : Bool :=
  decide (cap ∈ d.capabilities)

/- `homeassistant.components.fan.FanEntityFeature` flag values (IntFlag). -/
namespace FanEntityFeature

def SET_SPEED : ℕ := 1

def OSCILLATE : ℕ := 2

def DIRECTION : ℕ := 4

def PRESET_MODE : ℕ := 8

def TURN_OFF : ℕ := 16

def TURN_ON : ℕ := 32

end FanEntityFeature

/-- IntFlag membership `f in flags`: `flags & f == f`. -/
def featureMem (f flags : ℕ) : Bool := decide (flags &&& f = f)

/-- `SmartThingsFan._determine_features` from `fan.py`: unconditional
baseline `TURN_OFF | TURN_ON | SET_SPEED`, then `SET_SPEED` re-asserted for
a reported fan-speed capability and `PRESET_MODE` asserted for a reported
air-conditioner-fan-mode capability. -/
def _determine_features (device : Device) : ℕ :=
  let flags := FanEntityFeature.TURN_OFF ||| FanEntityFeature.TURN_ON |||
    FanEntityFeature.SET_SPEED
  let flags :=
    if device.get_capability Capability.fan_speed then
      flags ||| FanEntityFeature.SET_SPEED
    else flags
  let flags :=
    if device.get_capability Capability.air_conditioner_fan_mode then
      flags ||| FanEntityFeature.PRESET_MODE
    else flags
  flags

/-- Outbound remote commands issued by the adapter (pysmartthings device
calls, each carrying the target component id). -/
inductive Cmd where
  | switch_on (component : String)
  | switch_off (component : String)
  | set_fan_speed (value : ℤ) (component : String)
  | set_fan_mode (mode : String) (component : String)
deriving DecidableEq, Repr

/-- Observable effects of a control operation: a successfully executed
remote command, or the `async_write_ha_state` UI-refresh signal. -/
inductive Effect where
  | remote (c : Cmd)
  | write_ha_state
deriving DecidableEq, Repr

/-- Result of running an operation: the effects performed, paired with
`some c` when the remote command `c` failed and the failure propagated
(Python exception), `none` on success. -/
abbrev RunResult := List Effect × Option Cmd

/-- Await a remote command: the oracle says whether the remote call
succeeds. On success the command's effect is performed; on failure the
exception propagates and nothing is performed. -/
def runCmd (oracle : Cmd → Bool) (c : Cmd) : RunResult :=
  if oracle c then ([Effect.remote c], none) else ([], some c)

/-- Sequential composition with exception propagation: if the first part
raised, the continuation is skipped. -/
def seqRun (a : RunResult) (k : Unit → RunResult) : RunResult :=
  match a with
  | (t, some e) => (t, some e)
  | (t, none) =>
    let r := k ()
    (t ++ r.1, r.2)

/-- `SmartThingsFan._async_set_percentage` from `fan.py`: `None` issues
switch-on, `0` issues switch-off, otherwise a set-fan-speed command with
`math.ceil(percentage_to_ranged_value(SPEED_RANGE, percentage))`; then
`async_write_ha_state`. -/
def _async_set_percentage (oracle : Cmd → Bool) (component : String)
    (percentage : Option ℕ) : RunResult :=
  seqRun
    (match percentage with
     | none => runCmd oracle (Cmd.switch_on component)
     | some p =>
       if p = 0 then runCmd oracle (Cmd.switch_off component)
       else
         runCmd oracle
           (Cmd.set_fan_speed ⌈percentage_to_ranged_value SPEED_RANGE (p : ℚ)⌉
             component))
    (fun _ => ([Effect.write_ha_state], none))

/-- `SmartThingsFan.async_set_percentage` from `fan.py`: the public entry
point, delegating with a (non-null) integer percentage. -/
def async_set_percentage (oracle : Cmd → Bool) (component : String)
    (percentage : ℕ) : RunResult :=
  _async_set_percentage oracle component (some percentage)

/-- `SmartThingsFan.async_set_preset_mode` from `fan.py`: issue a
set-fan-mode command, then `async_write_ha_state`. -/
def async_set_preset_mode (oracle : Cmd → Bool) (component : String)
    (preset_mode : String) : RunResult :=
  seqRun (runCmd oracle (Cmd.set_fan_mode preset_mode component))
    (fun _ => ([Effect.write_ha_state], none))

/-- `SmartThingsFan.async_turn_on` from `fan.py`: when `SET_SPEED` is in
the supported features, delegate to `_async_set_percentage` with the given
(possibly null) percentage; otherwise issue a plain switch-on. The
`preset_mode` argument is accepted but never used. Then
`async_write_ha_state`. -/
def async_turn_on (oracle : Cmd → Bool) (features : ℕ) (component : String)
    (percentage : Option ℕ) (preset_mode : Option String) : RunResult :=
  seqRun
    (if featureMem FanEntityFeature.SET_SPEED features then
       _async_set_percentage oracle component percentage
     else runCmd oracle (Cmd.switch_on component))
    (fun _ => ([Effect.write_ha_state], none))

/-- `SmartThingsFan.async_turn_off` from `fan.py`: issue a switch-off
command, then `async_write_ha_state`. -/
def async_turn_off (oracle : Cmd → Bool) (component : String) : RunResult :=
  seqRun (runCmd oracle (Cmd.switch_off component))
    (fun _ => ([Effect.write_ha_state], none))

/-- A component-scoped status snapshot as read by the read-back
properties; `fan_speed` is `none` when the attribute is unset (Python
`None`). -/
structure ComponentStatus where
  switch : Bool
  fan_speed : Option ℤ
  fan_mode : Option String
  supported_ac_fan_modes : Option (List String)

/-- A device status snapshot: the top-level (main) status and the named
sub-component status blocks. -/
structure DeviceStatus where
  main : ComponentStatus
  components : String → ComponentStatus

/-- `SmartThingsFan.percentage` from `fan.py`: reads `status.fan_speed`
(top-level for component "main", else the named component block) and feeds
it straight into `ranged_value_to_percentage`. The body has no null branch:
when the attribute is unset (Python `None`), the transform's subtraction
`value - offset` raises `TypeError`, modelled as `Except.error`. -/
def percentage (st : DeviceStatus) (component : String) : Except String ℤ :=
  if component = "main" then
    match st.main.fan_speed with
    | none => Except.error "TypeError"
    | some v => Except.ok (ranged_value_to_percentage SPEED_RANGE (v : ℚ))
  else
    match (st.components component).fan_speed with
    | none => Except.error "TypeError"
    | some v => Except.ok (ranged_value_to_percentage SPEED_RANGE (v : ℚ))

/-! Helper lemmas about the percentage transforms on `SPEED_RANGE`. -/

lemma percentage_to_ranged_value_speed_range (p : ℚ) :
    percentage_to_ranged_value SPEED_RANGE p = 3 * p / 100 := by
  simp only [percentage_to_ranged_value, states_in_range, SPEED_RANGE]
  ring

lemma ranged_value_to_percentage_speed_range (v : ℚ) :
    ranged_value_to_percentage SPEED_RANGE v = ⌊v * 100 / 3⌋ := by
  simp only [ranged_value_to_percentage, states_in_range, SPEED_RANGE]
  norm_num

lemma ceil_quantize (p : ℕ) (k : ℤ) (h1 : (100 : ℚ) * (k - 1) < 3 * p)
    (h2 : (3 : ℚ) * p ≤ 100 * k) :
    ⌈percentage_to_ranged_value SPEED_RANGE (p : ℚ)⌉ = k := by
  rw [percentage_to_ranged_value_speed_range, Int.ceil_eq_iff,
    lt_div_iff₀ (by norm_num : (0 : ℚ) < 100),
    div_le_iff₀ (by norm_num : (0 : ℚ) < 100)]
  constructor <;> linarith

/-- C1: `get_capabilities` returns a non-`none` result if and only if the
input contains the switch capability and at least one of
air-conditioner-fan-mode and fan-speed; on success the result consists of
the switch capability plus exactly those optional capabilities present in
the input, and for all other sets it returns `none`. -/
theorem C1_get_capabilities (caps : List String) :
    ((get_capabilities caps).isSome = true ↔
      Capability.switch ∈ caps ∧
        (Capability.air_conditioner_fan_mode ∈ caps ∨ Capability.fan_speed ∈ caps)) ∧
    ∀ r, get_capabilities caps = some r →
      ∀ c, c ∈ r ↔
        c = Capability.switch ∨
          (c = Capability.air_conditioner_fan_mode ∧
            Capability.air_conditioner_fan_mode ∈ caps) ∨
          (c = Capability.fan_speed ∧ Capability.fan_speed ∈ caps) := by
  by_cases hs : Capability.switch ∈ caps
  · by_cases ha : Capability.air_conditioner_fan_mode ∈ caps <;>
      by_cases hf : Capability.fan_speed ∈ caps <;>
      simp [get_capabilities, hs, ha, hf]
  · simp [get_capabilities, hs]

/-- Witness for C1 at the concrete input `[switch, fanSpeed]`. -/
theorem C1_get_capabilities_witness :
    (get_capabilities [Capability.switch, Capability.fan_speed]).isSome = true ∧
    (Capability.fan_speed ∈ [Capability.switch, Capability.fan_speed] ↔
      Capability.fan_speed = Capability.switch ∨
        (Capability.fan_speed = Capability.air_conditioner_fan_mode ∧
          Capability.air_conditioner_fan_mode ∈ [Capability.switch, Capability.fan_speed]) ∨
        (Capability.fan_speed = Capability.fan_speed ∧
          Capability.fan_speed ∈ [Capability.switch, Capability.fan_speed])) := by
  have h := C1_get_capabilities [Capability.switch, Capability.fan_speed]
  refine ⟨h.1.mpr ⟨by decide, Or.inr (by decide)⟩, ?_⟩
  · exact h.2 [Capability.switch, Capability.fan_speed] (by decide) Capability.fan_speed

/-- C2: `async_set_percentage` with percentage 0 issues the off-command;
with a percentage in (0,100] it issues a set-fan-speed command whose level
is the ceiling of `percentage_to_ranged_value` over `SPEED_RANGE = (1,3)`:
1–33 map to level 1, 34–66 to level 2, 67–100 to level 3 (boundary values
map up, so a non-zero percentage never quantizes to level 0). -/
theorem C2_async_set_percentage (component : String) (p : ℕ) :
    (p = 0 → async_set_percentage (fun _ => true) component p =
      ([Effect.remote (Cmd.switch_off component), Effect.write_ha_state], none)) ∧
    (1 ≤ p → p ≤ 33 → async_set_percentage (fun _ => true) component p =
      ([Effect.remote (Cmd.set_fan_speed 1 component), Effect.write_ha_state], none)) ∧
    (34 ≤ p → p ≤ 66 → async_set_percentage (fun _ => true) component p =
      ([Effect.remote (Cmd.set_fan_speed 2 component), Effect.write_ha_state], none)) ∧
    (67 ≤ p → p ≤ 100 → async_set_percentage (fun _ => true) component p =
      ([Effect.remote (Cmd.set_fan_speed 3 component), Effect.write_ha_state], none)) := by
  refine ⟨fun h0 => ?_, fun hl hu => ?_, fun hl hu => ?_, fun hl hu => ?_⟩
  · simp [async_set_percentage, _async_set_percentage, runCmd, seqRun, h0]
  · have hl' : (1 : ℚ) ≤ p := by exact_mod_cast hl
    have hu' : (p : ℚ) ≤ 33 := by exact_mod_cast hu
    have hq : ⌈percentage_to_ranged_value SPEED_RANGE (p : ℚ)⌉ = 1 :=
      ceil_quantize p 1 (by push_cast; linarith) (by push_cast; linarith)
    have hp : ¬ p = 0 := by omega
    simp [async_set_percentage, _async_set_percentage, runCmd, seqRun, hp, hq]
  · have hl' : (34 : ℚ) ≤ p := by exact_mod_cast hl
    have hu' : (p : ℚ) ≤ 66 := by exact_mod_cast hu
    have hq : ⌈percentage_to_ranged_value SPEED_RANGE (p : ℚ)⌉ = 2 :=
      ceil_quantize p 2 (by push_cast; linarith) (by push_cast; linarith)
    have hp : ¬ p = 0 := by omega
    simp [async_set_percentage, _async_set_percentage, runCmd, seqRun, hp, hq]
  · have hl' : (67 : ℚ) ≤ p := by exact_mod_cast hl
    have hu' : (p : ℚ) ≤ 100 := by exact_mod_cast hu
    have hq : ⌈percentage_to_ranged_value SPEED_RANGE (p : ℚ)⌉ = 3 :=
      ceil_quantize p 3 (by push_cast; linarith) (by push_cast; linarith)
    have hp : ¬ p = 0 := by omega
    simp [async_set_percentage, _async_set_percentage, runCmd, seqRun, hp, hq]

/-- Witness for C2 at the boundary percentages 0, 1, 34, 67. -/
theorem C2_async_set_percentage_witness :
    async_set_percentage (fun _ => true) "main" 0 =
      ([Effect.remote (Cmd.switch_off "main"), Effect.write_ha_state], none) ∧
    async_set_percentage (fun _ => true) "main" 1 =
      ([Effect.remote (Cmd.set_fan_speed 1 "main"), Effect.write_ha_state], none) ∧
    async_set_percentage (fun _ => true) "main" 34 =
      ([Effect.remote (Cmd.set_fan_speed 2 "main"), Effect.write_ha_state], none) ∧
    async_set_percentage (fun _ => true) "main" 67 =
      ([Effect.remote (Cmd.set_fan_speed 3 "main"), Effect.write_ha_state], none) :=
  ⟨(C2_async_set_percentage "main" 0).1 rfl,
   (C2_async_set_percentage "main" 1).2.1 (by decide) (by decide),
   (C2_async_set_percentage "main" 34).2.2.1 (by decide) (by decide),
   (C2_async_set_percentage "main" 67).2.2.2 (by decide) (by decide)⟩

/-- C3: for each speed level L in [1,3], mapping L to a percentage with the
read-back transform `ranged_value_to_percentage` and mapping that
percentage back through the forward path (ceiling of
`percentage_to_ranged_value`) yields L again. -/
theorem C3_round_trip (L : ℕ) (h1 : 1 ≤ L) (h2 : L ≤ 3) :
    ⌈percentage_to_ranged_value SPEED_RANGE
      ((ranged_value_to_percentage SPEED_RANGE (L : ℚ) : ℤ) : ℚ)⌉ = (L : ℤ) := by
  interval_cases L
  · have hf : ranged_value_to_percentage SPEED_RANGE ((1 : ℕ) : ℚ) = 33 := by
      rw [ranged_value_to_percentage_speed_range]
      norm_num [Int.floor_eq_iff]
    rw [hf]
    exact ceil_quantize 33 1 (by norm_num) (by norm_num)
  · have hf : ranged_value_to_percentage SPEED_RANGE ((2 : ℕ) : ℚ) = 66 := by
      rw [ranged_value_to_percentage_speed_range]
      norm_num [Int.floor_eq_iff]
    rw [hf]
    exact ceil_quantize 66 2 (by norm_num) (by norm_num)
  · have hf : ranged_value_to_percentage SPEED_RANGE ((3 : ℕ) : ℚ) = 100 := by
      rw [ranged_value_to_percentage_speed_range]
      norm_num [Int.floor_eq_iff]
    rw [hf]
    exact ceil_quantize 100 3 (by norm_num) (by norm_num)

/-- Witness for C3 at level 2. -/
theorem C3_round_trip_witness :
    ⌈percentage_to_ranged_value SPEED_RANGE
      ((ranged_value_to_percentage SPEED_RANGE ((2 : ℕ) : ℚ) : ℤ) : ℚ)⌉ = ((2 : ℕ) : ℤ) :=
  C3_round_trip 2 (by decide) (by decide)

/-- C4: when `async_turn_on` runs with `SET_SPEED` in the supported
features and no percentage given, it issues a plain on-command and never a
set-speed or off-command: the null percentage is not treated as
percentage 0. -/
theorem C4_turn_on_null_percentage (features : ℕ) (component : String)
    (preset_mode : Option String)
    (h : featureMem FanEntityFeature.SET_SPEED features = true) :
    async_turn_on (fun _ => true) features component none preset_mode =
      ([Effect.remote (Cmd.switch_on component), Effect.write_ha_state,
        Effect.write_ha_state], none) ∧
    (∀ v, Effect.remote (Cmd.set_fan_speed v component) ∉
      (async_turn_on (fun _ => true) features component none preset_mode).1) ∧
    Effect.remote (Cmd.switch_off component) ∉
      (async_turn_on (fun _ => true) features component none preset_mode).1 := by
  refine ⟨?_, ?_, ?_⟩ <;>
    simp [async_turn_on, _async_set_percentage, runCmd, seqRun, h]

/-- Witness for C4 with the baseline feature flags. -/
theorem C4_turn_on_null_percentage_witness :
    async_turn_on (fun _ => true)
        (FanEntityFeature.TURN_OFF ||| FanEntityFeature.TURN_ON |||
          FanEntityFeature.SET_SPEED) "main" none none =
      ([Effect.remote (Cmd.switch_on "main"), Effect.write_ha_state,
        Effect.write_ha_state], none) :=
  (C4_turn_on_null_percentage
    (FanEntityFeature.TURN_OFF ||| FanEntityFeature.TURN_ON |||
      FanEntityFeature.SET_SPEED) "main" none (by decide)).1

/-- C5 counterexample: on the input `[switch, fanSpeed,
airConditionerFanMode]` the classifier returns the optional capabilities as
`[airConditionerFanMode, fanSpeed]` (the fixed order of its internal
optional list), while the input encounter order of the optional
capabilities is `[fanSpeed, airConditionerFanMode]` — so the result does
not preserve input encounter order. -/
theorem C5_counterexample :
    get_capabilities
        [Capability.switch, Capability.fan_speed, Capability.air_conditioner_fan_mode] =
      some [Capability.switch, Capability.air_conditioner_fan_mode, Capability.fan_speed] ∧
    [Capability.switch, Capability.fan_speed, Capability.air_conditioner_fan_mode].filter
        (fun c => decide (c = Capability.air_conditioner_fan_mode ∨
          c = Capability.fan_speed)) =
      [Capability.fan_speed, Capability.air_conditioner_fan_mode] ∧
    [Capability.air_conditioner_fan_mode, Capability.fan_speed] ≠
      [Capability.fan_speed, Capability.air_conditioner_fan_mode] := by
  decide

/-- C5 (amended): on classification success with both optional capabilities
present, the optional capabilities appear in the classifier's fixed
internal order — air-conditioner-fan-mode first, then fan-speed —
regardless of their order in the input. -/
theorem C5_fixed_optional_order (caps : List String)
    (hs : Capability.switch ∈ caps)
    (ha : Capability.air_conditioner_fan_mode ∈ caps)
    (hf : Capability.fan_speed ∈ caps) :
    get_capabilities caps =
      some [Capability.switch, Capability.air_conditioner_fan_mode,
        Capability.fan_speed] := by
  simp [get_capabilities, hs, ha, hf]

/-- Witness for the amended C5 with the optional capabilities reversed in
the input. -/
theorem C5_fixed_optional_order_witness :
    get_capabilities
        [Capability.switch, Capability.fan_speed, Capability.air_conditioner_fan_mode] =
      some [Capability.switch, Capability.air_conditioner_fan_mode,
        Capability.fan_speed] :=
  C5_fixed_optional_order
    [Capability.switch, Capability.fan_speed, Capability.air_conditioner_fan_mode]
    (by decide) (by decide) (by decide)

/-- C6 (code behavior at the failing input): with the fan-speed attribute
unset (Python `None`), the `percentage` property does not return an absent
value — the unset level flows into `ranged_value_to_percentage`, whose
subtraction raises `TypeError`; the read-back fails instead of returning
null. -/
theorem C6_percentage_unset_fails :
    percentage
        ⟨⟨false, none, none, none⟩, fun _ => ⟨false, none, none, none⟩⟩ "main" =
      Except.error "TypeError" := rfl

/-! Helper lemmas about effect traces. -/

lemma runCmd_write_not_mem (oracle : Cmd → Bool) (c : Cmd) :
    Effect.write_ha_state ∉ (runCmd oracle c).1 := by
  by_cases h : oracle c = true <;> simp [runCmd, h]

lemma seq_write_spec_of (a : RunResult)
    (hne : a.2 ≠ none → Effect.write_ha_state ∉ a.1) :
    ((seqRun a (fun _ => ([Effect.write_ha_state], none))).2 ≠ none →
      Effect.write_ha_state ∉
        (seqRun a (fun _ => ([Effect.write_ha_state], none))).1) ∧
    ((seqRun a (fun _ => ([Effect.write_ha_state], none))).2 = none →
      Effect.write_ha_state ∈
        (seqRun a (fun _ => ([Effect.write_ha_state], none))).1) := by
  rcases a with ⟨t, e⟩
  rcases e with _ | c
  · simp [seqRun]
  · simpa [seqRun] using hne (by simp)

lemma asp_write_spec (oracle : Cmd → Bool) (component : String) (p : Option ℕ) :
    ((_async_set_percentage oracle component p).2 ≠ none →
      Effect.write_ha_state ∉ (_async_set_percentage oracle component p).1) ∧
    ((_async_set_percentage oracle component p).2 = none →
      Effect.write_ha_state ∈ (_async_set_percentage oracle component p).1) := by
  rcases p with _ | q
  · exact seq_write_spec_of _ (fun _ => runCmd_write_not_mem oracle _)
  · by_cases hq : q = 0
    · subst hq
      exact seq_write_spec_of _ (fun _ => runCmd_write_not_mem oracle _)
    · have hrw : _async_set_percentage oracle component (some q) =
          seqRun
            (runCmd oracle
              (Cmd.set_fan_speed
                ⌈percentage_to_ranged_value SPEED_RANGE (q : ℚ)⌉ component))
            (fun _ => ([Effect.write_ha_state], none)) := by
        simp [_async_set_percentage, hq]
      rw [hrw]
      exact seq_write_spec_of _ (fun _ => runCmd_write_not_mem oracle _)

lemma mem_runCmd_trace (oracle : Cmd → Bool) (c : Cmd) (e : Effect)
    (he : e ∈ (runCmd oracle c).1) : e = Effect.remote c := by
  by_cases h : oracle c = true <;> simp_all [runCmd, h]

lemma mem_seqRun_write_trace (a : RunResult) (e : Effect)
    (he : e ∈ (seqRun a (fun _ => ([Effect.write_ha_state], none))).1) :
    e ∈ a.1 ∨ e = Effect.write_ha_state := by
  rcases a with ⟨t, e2⟩
  rcases e2 with _ | c <;> simp_all [seqRun]

lemma asp_trace_shape (oracle : Cmd → Bool) (component : String) (p : Option ℕ)
    (e : Effect) (he : e ∈ (_async_set_percentage oracle component p).1) :
    e = Effect.remote (Cmd.switch_on component) ∨
    e = Effect.remote (Cmd.switch_off component) ∨
    (∃ v, e = Effect.remote (Cmd.set_fan_speed v component)) ∨
    e = Effect.write_ha_state := by
  rcases p with _ | q
  · rcases mem_seqRun_write_trace _ _ he with h | h
    · exact Or.inl (mem_runCmd_trace oracle _ e h)
    · exact Or.inr (Or.inr (Or.inr h))
  · by_cases hq : q = 0
    · subst hq
      rcases mem_seqRun_write_trace _ _ he with h | h
      · exact Or.inr (Or.inl (mem_runCmd_trace oracle _ e h))
      · exact Or.inr (Or.inr (Or.inr h))
    · rw [show _async_set_percentage oracle component (some q) =
          seqRun
            (runCmd oracle
              (Cmd.set_fan_speed
                ⌈percentage_to_ranged_value SPEED_RANGE (q : ℚ)⌉ component))
            (fun _ => ([Effect.write_ha_state], none)) by
        simp [_async_set_percentage, hq]] at he
      rcases mem_seqRun_write_trace _ _ he with h | h
      · exact Or.inr (Or.inr (Or.inl ⟨_, mem_runCmd_trace oracle _ e h⟩))
      · exact Or.inr (Or.inr (Or.inr h))

lemma turn_on_trace_shape (oracle : Cmd → Bool) (features : ℕ)
    (component : String) (p : Option ℕ) (pm : Option String) (e : Effect)
    (he : e ∈ (async_turn_on oracle features component p pm).1) :
    e = Effect.remote (Cmd.switch_on component) ∨
    e = Effect.remote (Cmd.switch_off component) ∨
    (∃ v, e = Effect.remote (Cmd.set_fan_speed v component)) ∨
    e = Effect.write_ha_state := by
  by_cases hf : featureMem FanEntityFeature.SET_SPEED features = true
  · rw [show async_turn_on oracle features component p pm =
        seqRun (_async_set_percentage oracle component p)
          (fun _ => ([Effect.write_ha_state], none)) by
      simp [async_turn_on, hf]] at he
    rcases mem_seqRun_write_trace _ _ he with h | h
    · exact asp_trace_shape oracle component p e h
    · exact Or.inr (Or.inr (Or.inr h))
  · rw [show async_turn_on oracle features component p pm =
        seqRun (runCmd oracle (Cmd.switch_on component))
          (fun _ => ([Effect.write_ha_state], none)) by
      simp [async_turn_on, hf]] at he
    rcases mem_seqRun_write_trace _ _ he with h | h
    · exact Or.inl (mem_runCmd_trace oracle _ e h)
    · exact Or.inr (Or.inr (Or.inr h))

/-- C7: for each control operation (set percentage, set preset mode, turn
on, turn off) and any outcome of the remote command: if the remote command
fails then the failure propagates (the run result carries the failed
command) and the `async_write_ha_state` optimistic UI-refresh signal is not
performed; if it succeeds the UI-refresh signal is performed. -/
theorem C7_atomic_optimistic_update (oracle : Cmd → Bool) (component : String)
    (p : ℕ) (po : Option ℕ) (mode : String) (features : ℕ)
    (pm : Option String) :
    (((async_set_percentage oracle component p).2 ≠ none →
        Effect.write_ha_state ∉ (async_set_percentage oracle component p).1) ∧
      ((async_set_percentage oracle component p).2 = none →
        Effect.write_ha_state ∈ (async_set_percentage oracle component p).1)) ∧
    (((async_set_preset_mode oracle component mode).2 ≠ none →
        Effect.write_ha_state ∉ (async_set_preset_mode oracle component mode).1) ∧
      ((async_set_preset_mode oracle component mode).2 = none →
        Effect.write_ha_state ∈ (async_set_preset_mode oracle component mode).1)) ∧
    (((async_turn_on oracle features component po pm).2 ≠ none →
        Effect.write_ha_state ∉ (async_turn_on oracle features component po pm).1) ∧
      ((async_turn_on oracle features component po pm).2 = none →
        Effect.write_ha_state ∈ (async_turn_on oracle features component po pm).1)) ∧
    (((async_turn_off oracle component).2 ≠ none →
        Effect.write_ha_state ∉ (async_turn_off oracle component).1) ∧
      ((async_turn_off oracle component).2 = none →
        Effect.write_ha_state ∈ (async_turn_off oracle component).1)) := by
  refine ⟨asp_write_spec oracle component (some p), ?_, ?_, ?_⟩
  · exact seq_write_spec_of _ (fun _ => runCmd_write_not_mem oracle _)
  · by_cases hf : featureMem FanEntityFeature.SET_SPEED features = true
    · have hrw : async_turn_on oracle features component po pm =
          seqRun (_async_set_percentage oracle component po)
            (fun _ => ([Effect.write_ha_state], none)) := by
        simp [async_turn_on, hf]
      rw [hrw]
      exact seq_write_spec_of _ (asp_write_spec oracle component po).1
    · have hrw : async_turn_on oracle features component po pm =
          seqRun (runCmd oracle (Cmd.switch_on component))
            (fun _ => ([Effect.write_ha_state], none)) := by
        simp [async_turn_on, hf]
      rw [hrw]
      exact seq_write_spec_of _ (fun _ => runCmd_write_not_mem oracle _)
  · exact seq_write_spec_of _ (fun _ => runCmd_write_not_mem oracle _)

/-- Witness for C7: turn-off with a failing remote command performs no
UI-refresh signal; with a succeeding one it does. -/
theorem C7_atomic_optimistic_update_witness :
    (Effect.write_ha_state ∉ (async_turn_off (fun _ => false) "main").1) ∧
    (Effect.write_ha_state ∈ (async_turn_off (fun _ => true) "main").1) :=
  ⟨(C7_atomic_optimistic_update (fun _ => false) "main" 1 none "auto" 0
      none).2.2.2.1 (by decide),
   (C7_atomic_optimistic_update (fun _ => true) "main" 1 none "auto" 0
      none).2.2.2.2 (by decide)⟩

/-- C8: feature derivation always yields flags containing TURN_ON,
TURN_OFF and SET_SPEED; PRESET_MODE is included if and only if the device
reports the air-conditioner-fan-mode capability; and re-asserting SET_SPEED
over the baseline is idempotent. -/
theorem C8_determine_features (d : Device) :
    featureMem FanEntityFeature.TURN_ON (_determine_features d) = true ∧
    featureMem FanEntityFeature.TURN_OFF (_determine_features d) = true ∧
    featureMem FanEntityFeature.SET_SPEED (_determine_features d) = true ∧
    (featureMem FanEntityFeature.PRESET_MODE (_determine_features d) = true ↔
      d.get_capability Capability.air_conditioner_fan_mode = true) ∧
    (FanEntityFeature.TURN_OFF ||| FanEntityFeature.TURN_ON |||
          FanEntityFeature.SET_SPEED) ||| FanEntityFeature.SET_SPEED =
      FanEntityFeature.TURN_OFF ||| FanEntityFeature.TURN_ON |||
        FanEntityFeature.SET_SPEED := by
  by_cases h1 : d.get_capability Capability.fan_speed = true <;>
    by_cases h2 : d.get_capability Capability.air_conditioner_fan_mode = true <;>
      simp only [_determine_features, h1, h2, if_true, if_false,
        Bool.false_eq_true, if_neg, not_false_iff] <;>
      simp [h1, h2] <;> decide

/-- C9: the turn-on path never issues a set-fan-mode command for any
preset-mode argument (its result does not depend on the preset-mode
argument at all); only `async_set_preset_mode` issues a set-fan-mode
command. -/
theorem C9_turn_on_ignores_preset_mode (oracle : Cmd → Bool) (features : ℕ)
    (component : String) (p : Option ℕ) (pm1 pm2 : Option String)
    (mode : String) :
    async_turn_on oracle features component p pm1 =
      async_turn_on oracle features component p pm2 ∧
    (∀ m c, Effect.remote (Cmd.set_fan_mode m c) ∉
      (async_turn_on oracle features component p pm1).1) ∧
    async_set_preset_mode (fun _ => true) component mode =
      ([Effect.remote (Cmd.set_fan_mode mode component),
        Effect.write_ha_state], none) := by
  refine ⟨rfl, ?_, ?_⟩
  · intro m c hmem
    rcases turn_on_trace_shape oracle features component p pm1 _ hmem with
      h | h | ⟨v, h⟩ | h <;> simp_all
  · simp [async_set_preset_mode, runCmd, seqRun]

/-- Witness for C9 at concrete inputs. -/
theorem C9_turn_on_ignores_preset_mode_witness :
    Effect.remote (Cmd.set_fan_mode "auto" "main") ∉
      (async_turn_on (fun _ => true) 49 "main" (some 50) (some "auto")).1 :=
  (C9_turn_on_ignores_preset_mode (fun _ => true) 49 "main" (some 50)
    (some "auto") (some "auto") "auto").2.1 "auto" "main"

/-- C10: the derived supported features of every constructed adapter
contain SET_SPEED, so `async_turn_on` always takes the
percentage-delegation branch; the plain-on-command branch guarded by the
absence of SET_SPEED is unreachable for adapter-derived features. -/
theorem C10_turn_on_always_delegates (d : Device) (oracle : Cmd → Bool)
    (component : String) (p : Option ℕ) (pm : Option String) :
    featureMem FanEntityFeature.SET_SPEED (_determine_features d) = true ∧
    async_turn_on oracle (_determine_features d) component p pm =
      seqRun (_async_set_percentage oracle component p)
        (fun _ => ([Effect.write_ha_state], none)) := by
  have h : featureMem FanEntityFeature.SET_SPEED (_determine_features d) = true := by
    by_cases h1 : d.get_capability Capability.fan_speed = true <;>
      by_cases h2 : d.get_capability Capability.air_conditioner_fan_mode = true <;>
        simp [_determine_features, featureMem, h1, h2] <;> decide
  exact ⟨h, by simp [async_turn_on, h]⟩

end STFan
